import Mathlib

set_option autoImplicit false

namespace CCI

/-!  Shallow embedding of two CumulusCI task modules:
  `cumulusci/tasks/salesforce/users/photos.py` (class `UploadProfilePhoto`) and
  `cumulusci/tasks/salesforce/DeployBundles.py` (class `DeployBundles`).
  Strings are modelled by Lean `String`; Python exceptions by an explicit
  error type; every call that reaches the Salesforce platform client is
  recorded in a trace. -/

/-! ### String helpers mirroring the Python string primitives used -/

/-- Python `sep.join(l)`. -/
def joinSep (sep : String) : List String → String
  | [] => ""
  | [s] => s
  | s :: rest => s ++ sep ++ joinSep sep rest

/-- `needle` occurs as a contiguous substring of `hay`. -/
def substrOf (needle hay : String) : Prop :=
  ∃ l r, hay.data = l ++ needle.data ++ r

/-- Python `s[-n:]`: the last `n` characters (the whole string when shorter). -/
def strTakeRight (s : String) (n : Nat) : String :=
  ⟨s.data.drop (s.data.length - n)⟩

/-- ASCII lowercasing of a character list (Python `re.I` on the pattern
`WHERE`, whose letters are ASCII). -/
def lowerList (l : List Char) : List Char :=
  l.map Char.toLower

/-- `re.sub(r"^WHERE ?", "", where, flags=re.I)` from
`UploadProfilePhoto._get_user_id_by_query`: when the string starts with the
five characters of `WHERE` case-insensitively, they are removed together with
at most one following space; otherwise the string is unchanged. -/
def strip_where (w : String) : String :=
  if lowerList (w.data.take 5) = "where".data ∧ 5 ≤ w.data.length then
    match w.data.drop 5 with
    | ' ' :: t => ⟨t⟩
    | rest => ⟨rest⟩
  else w

/-! ### Errors and the platform-call trace -/

/-- A `SalesforceMalformedRequest`'s `content`: a list of error entries, each
optionally carrying a `message` value (Python `error.get("message", ...)`). -/
def SFContent : Type := List (Option String)

/-- The Python exceptions that the photos task can raise. `cumulusCIException`
carries `Option String` because `CumulusCIException` may be constructed with
`None` as its message. -/
inductive PyErr where
  | cumulusCIException (msg : Option String)
  | salesforceMalformedRequest (content : List (Option String))
  | attributeError (methodName : String)
  | indexError
  deriving DecidableEq, Repr

/-- Calls reaching the Salesforce platform client `self.sf`. -/
inductive PCall where
  | queryAllUsers (q : String)
  | restIdentity
  | describeUser
  | contentVersionCreate (pathOnClient : String) (title : String) (versionData : String)
  | queryContentVersion (q : String)
  | linkPhoto (userId : String) (fileId : String)
  | deleteContentDocument (contentDocumentId : String)
  deriving DecidableEq, Repr

/-- Whether a platform call is a delete of content document `cdid`. -/
def isDeleteOf (cdid : String) : PCall → Bool
  | PCall.deleteContentDocument x => decide (x = cdid)
  | _ => false

/-- Number of deletes of content document `cdid` recorded in a trace. -/
def delCount (cdid : String) (tr : List PCall) : Nat :=
  tr.countP (isDeleteOf cdid)

/-! ### photos.py: module-level helper -/

/-- `join_errors` from photos.py.  The Python body is the bare expression
`"; ".join([error.get("message", "Unknown error.") for error in e.content])`
with no `return` statement, so the function evaluates the join, discards it,
and returns `None`.  `join_errors_formatted` is the string the body builds. -/
def join_errors_formatted (content : List (Option String)) : String :=
  joinSep "; " (content.map (fun m => m.getD "Unknown error."))

/-- The actual return value of Python `join_errors`: always `None`, because
the function lacks a `return`. -/
def join_errors (content : List (Option String)) : Option String :=
  let _s := join_errors_formatted content
  none

/-- `UploadProfilePhoto._raise_cumulusci_exception`:
`raise CumulusCIException(join_errors(e))`. -/
def raise_cumulusci_exception (content : List (Option String)) : PyErr :=
  PyErr.cumulusCIException (join_errors content)

/-! ### photos.py: environment for the platform client -/

/-- One entry of `self.sf.User.describe()["fields"]`: the parts read by
`_get_query`. -/
structure FieldMeta where
  soapType : String
  filterable : Bool
  deriving DecidableEq, Repr

/-- Result value of `self.sf.ContentVersion.create(...)`: the parts read by
`_insert_content_document` (`result["success"]`, `result["id"]`,
`result["errors"]` pre-formatted as text). -/
structure CVResult where
  success : Bool
  id : String
  errors : String
  deriving DecidableEq, Repr

/-- The platform client's responses, as an oracle.  `queryAll` maps a SOQL
string to either a raised `SalesforceMalformedRequest` content or the list of
returned `Id` values; `cvCreate` is the content-version create outcome;
`cdRecords` maps the content-version lookup query to the returned
`ContentDocumentId` column; `linkOutcome` is `some content` when the Connect
API photo call raises `SalesforceMalformedRequest` and `none` on success. -/
structure SFEnv where
  identity : String
  userFields : List (String × FieldMeta)
  queryAll : String → Except (List (Option String)) (List String)
  cvCreate : Except (List (Option String)) CVResult
  cdRecords : String → List String
  linkOutcome : String → String → Option (List (Option String))

/-- The photo file named by `self.options["photo"]`, as `_insert_content_document`
reads it through `pathlib.Path`: the raw option string, whether the path
exists, `path.name`, `path.stem`, and the base64-encoded bytes. -/
structure PhotoFile where
  path : String
  existsOnDisk : Bool
  name : String
  stem : String
  b64 : String

/-! ### photos.py: methods of UploadProfilePhoto -/

/-- `UploadProfilePhoto._get_query`, clause construction for one
`(name, value)` pair once the field metadata is known. -/
def renderClause (userFields : List (String × FieldMeta)) (p : String × String) : String :=
  match userFields.lookup p.1 with
  | some field =>
      if field.soapType = "xsd:string" ∨ field.soapType = "tns:ID" ∨ field.soapType = "urn:address" then
        p.1 ++ " = '" ++ p.2 ++ "'"
      else
        p.1 ++ " = " ++ p.2
  | none => ""

/-- The loop body of `UploadProfilePhoto._get_query`: validates each filter
field exists (case-sensitive lookup) and is filterable, and builds the list of
clauses in iteration order, raising `CumulusCIException` at the first bad
field. -/
def buildFilterClauses (userFields : List (String × FieldMeta)) :
    List (String × String) → Except PyErr (List String)
  | [] => Except.ok []
  | (name, value) :: rest =>
      match userFields.lookup name with
      | none =>
          Except.error (PyErr.cumulusCIException (some
            ("User Field \"" ++ name ++ "\" referenced in \"filters\" option is not found.  Fields are case-sensitive.")))
      | some field =>
          if field.filterable = false then
            Except.error (PyErr.cumulusCIException (some
              ("User Field \"" ++ name ++ "\" referenced in \"filters\" option must be filterable.")))
          else
            match buildFilterClauses userFields rest with
            | Except.error e => Except.error e
            | Except.ok clauses => Except.ok (renderClause userFields (name, value) :: clauses)

/-- `UploadProfilePhoto._get_query`: the full SOQL string built from the
`filters` option, given the `User.describe()` field list. -/
def get_query (userFields : List (String × FieldMeta))
    (filters : List (String × String)) : Except PyErr String :=
  match buildFilterClauses userFields filters with
  | Except.error e => Except.error e
  | Except.ok clauses => Except.ok ("SELECT Id FROM User WHERE " ++ joinSep " AND " clauses)

/-- `UploadProfilePhoto._get_user_id_by_query`: builds the query from the
`where` option (stripping one leading case-insensitive `WHERE `), runs
`query_all`, wraps a platform rejection via `_raise_cumulusci_exception`, and
validates exactly one `User` row was returned. -/
def get_user_id_by_query (env : SFEnv) (whereStr : String) :
    Except PyErr String × List PCall :=
  let q := "SELECT Id FROM User WHERE " ++ strip_where whereStr
  match env.queryAll q with
  | Except.error content =>
      (Except.error (raise_cumulusci_exception content), [PCall.queryAllUsers q])
  | Except.ok userIds =>
      if userIds.length < 1 then
        (Except.error (PyErr.cumulusCIException (some "No Users found.")), [PCall.queryAllUsers q])
      else if 1 < userIds.length then
        (Except.error (PyErr.cumulusCIException (some
          ("More than one User found (" ++ toString userIds.length ++ "): " ++ joinSep ", " userIds))),
         [PCall.queryAllUsers q])
      else
        (Except.ok (userIds.getD 0 ""), [PCall.queryAllUsers q])

/-- `UploadProfilePhoto.get_default_user_id`: the method the class defines.
`self.sf.restful("")["identity"][-18:]`. -/
def get_default_user_id (env : SFEnv) : Except PyErr String × List PCall :=
  (Except.ok (strTakeRight env.identity 18), [PCall.restIdentity])

/-- `UploadProfilePhoto._insert_content_document`: validates the photo path
exists, creates a `ContentVersion`, checks the create's `success` flag, and
queries back the `ContentDocumentId` (Python `["records"][0]` raises
`IndexError` on an empty result). -/
def insert_content_document (env : SFEnv) (photo : PhotoFile) :
    Except PyErr String × List PCall :=
  if photo.existsOnDisk = false then
    (Except.error (PyErr.cumulusCIException (some ("No photo found at path: " ++ photo.path))), [])
  else
    let createCall := PCall.contentVersionCreate photo.name photo.stem photo.b64
    match env.cvCreate with
    | Except.error content =>
        (Except.error (PyErr.salesforceMalformedRequest content), [createCall])
    | Except.ok result =>
        if result.success = false then
          (Except.error (PyErr.cumulusCIException (some
            ("Failed to create photo ContentVersion: " ++ result.errors))), [createCall])
        else
          let q := "SELECT Id, ContentDocumentId FROM ContentVersion WHERE Id = '" ++ result.id ++ "'"
          match env.cdRecords q with
          | [] => (Except.error PyErr.indexError, [createCall, PCall.queryContentVersion q])
          | cdid :: _ => (Except.ok cdid, [createCall, PCall.queryContentVersion q])

/-- The `uploadPhoto(userId, filePath)` contract of the spec: the part of
`UploadProfilePhoto._run_task` after user resolution — insert the content
document, then call the Connect API to link it; on a
`SalesforceMalformedRequest` from the link call, delete the content document
via `_delete_content_document` and re-raise through
`_raise_cumulusci_exception`. -/
def uploadPhoto (env : SFEnv) (photo : PhotoFile) (userId : String) :
    Except PyErr Unit × List PCall :=
  match insert_content_document env photo with
  | (Except.error e, tr) => (Except.error e, tr)
  | (Except.ok cdid, tr) =>
      match env.linkOutcome userId cdid with
      | none => (Except.ok (), tr ++ [PCall.linkPhoto userId cdid])
      | some content =>
          (Except.error (raise_cumulusci_exception content),
           tr ++ [PCall.linkPhoto userId cdid, PCall.deleteContentDocument cdid])

/-- `UploadProfilePhoto._run_task`.  User resolution is
`self._get_user_id_by_query(self.options["where"]) if self.options.get("where")
else self._get_default_user_id()`; the name `_get_default_user_id` is not
defined on the class (the defined method is `get_default_user_id`, and the
generic API base task defines no such method either), so Python raises
`AttributeError` whenever the `where` option is absent or empty (falsy). -/
def run_task (env : SFEnv) (photo : PhotoFile) (whereOpt : Option String) :
    Except PyErr Unit × List PCall :=
  let userRes : Except PyErr String × List PCall :=
    match whereOpt with
    | some w =>
        if w = "" then (Except.error (PyErr.attributeError "_get_default_user_id"), [])
        else get_user_id_by_query env w
    | none => (Except.error (PyErr.attributeError "_get_default_user_id"), [])
  match userRes with
  | (Except.error e, tr) => (Except.error e, tr)
  | (Except.ok userId, tr) =>
      let res := uploadPhoto env photo userId
      (res.1, tr ++ res.2)

/-! ### DeployBundles.py -/

/-- `os.path.join(a, b)` as used by `DeployBundles._run_task`: an absolute
second component replaces the first, otherwise the two are joined with a
separator. -/
def pyPathJoin (a b : String) : String :=
  if b.data.take 1 = ['/'] then b else a ++ "/" ++ b

/-- `os.path.basename`: the part after the last path separator. -/
def pyBasename (s : String) : String :=
  ⟨(s.data.reverse.takeWhile (fun c => c ≠ '/')).reverse⟩

/-- Lexicographic comparison of character lists by code point: Python's
string `<=`. -/
def lexLeChars : List Char → List Char → Bool
  | [], _ => true
  | _ :: _, [] => false
  | a :: as, b :: bs =>
      if a.toNat < b.toNat then true
      else if b.toNat < a.toNat then false
      else lexLeChars as bs

/-- Python's string `<=`: code-point lexicographic order. -/
def strLe (a b : String) : Bool :=
  lexLeChars a.data b.data

/-- Python `sorted` on a list of names: stable ascending insertion sort under
the string order. -/
def insertStr (a : String) : List String → List String
  | [] => [a]
  | b :: l => if strLe a b then a :: b :: l else b :: insertStr a l

/-- Python `sorted(names)`. -/
def sortedStr : List String → List String
  | [] => []
  | a :: l => insertStr a (sortedStr l)

/-- Python `enumerate(l, k)`. -/
def enumFrom {α : Type} (k : Nat) : List α → List (Nat × α)
  | [] => []
  | a :: l => (k, a) :: enumFrom (k + 1) l

/-- The filesystem as `DeployBundles` observes it: `os.path.isdir` and
`os.listdir`. -/
structure FS where
  isDir : String → Bool
  listdir : String → List String

/-- The ambient project configuration read by `DeployBundles.freeze`:
`self.project_config.repo_owner`, `.repo_name`, `.repo_commit`. -/
structure ProjectMeta where
  repo_owner : String
  repo_name : String
  repo_commit : String
  deriving DecidableEq, Repr

/-- The parent step passed to `freeze(self, step)`: the parts read are
`step.path` and `step.step_num`. -/
structure StepRef where
  path : String
  step_num : String
  deriving DecidableEq, Repr

/-- The single dependency object placed in a frozen step's
`task_config["options"]["dependencies"]`. -/
structure DependencyCfg where
  repo_owner : String
  repo_name : String
  tag : String
  subfolder : String
  deriving DecidableEq, Repr

/-- One frozen deployment step.  `task_config` holds the structured value the
source serialises with `json.dumps`; that serialisation is deterministic and
injective on this fixed shape, so step equality below coincides with
byte-equality of the serialised steps. -/
structure Step where
  name : String
  path : String
  step_num : String
  kind : String
  is_required : Bool
  task_class : String
  task_config : DependencyCfg
  deriving DecidableEq, Repr

/-- The step `DeployBundles.freeze` builds for the `i`-th (1-based) entry
`item` of the sorted listing. -/
def mkStep (path : String) (meta : ProjectMeta) (step : StepRef) (i : Nat) (item : String) : Step :=
  { name := "Deploy " ++ path ++ "/" ++ pyBasename item,
    path := step.path ++ "." ++ pyBasename item,
    step_num := step.step_num ++ "." ++ toString i,
    kind := "metadata",
    is_required := true,
    task_class := "cumulusci.tasks.salesforce.UpdateDependencies",
    task_config := { repo_owner := meta.repo_owner, repo_name := meta.repo_name,
                     tag := meta.repo_commit, subfolder := path ++ "/" ++ item } }

/-- `DeployBundles.freeze`: one step per entry of `sorted(os.listdir(path))`,
1-indexed, `path` taken directly from the option (not resolved against the
working directory).  The second component records the `_deploy_bundle`
invocations made while freezing: the source makes none. -/
def freeze (fs : FS) (path : String) (meta : ProjectMeta) (step : StepRef) :
    List Step × List String :=
  ((enumFrom 1 (sortedStr (fs.listdir path))).map (fun p => mkStep path meta step p.1 p.2), [])

/-- The directory-entry name a frozen step was built from, recovered from its
dependency `subfolder` (`"/".join([path, item])`). -/
def stepEntryName (path : String) (s : Step) : String :=
  ⟨s.task_config.subfolder.data.drop (path.data.length + 1)⟩

/-- Entry names of a frozen plan, in step order. -/
def stepsEntryNames (path : String) (steps : List Step) : List String :=
  steps.map (stepEntryName path)

/-- The loop of `DeployBundles._run_task` over the sorted listing: skip
non-directories, deploy the rest in order via the injected `_deploy_bundle`,
halting at the first failure.  Returns the names of the bundles whose deploy
was invoked, and the propagated failure if one occurred. -/
def deployLoop (fs : FS) (dep : String → Except String Unit) (resolved : String) :
    List String → List String × Option String
  | [] => ([], none)
  | item :: rest =>
      if fs.isDir (pyPathJoin resolved item) = false then
        deployLoop fs dep resolved rest
      else
        match dep (pyPathJoin resolved item) with
        | Except.error e => ([item], some e)
        | Except.ok _ =>
            let r := deployLoop fs dep resolved rest
            (item :: r.1, r.2)

/-- `DeployBundles._run_task`: resolve the option path against the working
directory, warn and return when it is not a directory, otherwise deploy every
subdirectory of the sorted listing. -/
def run_task_deploy (fs : FS) (dep : String → Except String Unit)
    (pwd : String) (path : String) : List String × Option String :=
  let resolved := pyPathJoin pwd path
  if fs.isDir resolved = false then ([], none)
  else deployLoop fs dep resolved (sortedStr (fs.listdir resolved))

/-! ### Concrete sample inputs used by the witness theorems -/

/-- A small `User.describe()` field table: a string field, a boolean field,
and a non-filterable string field. -/
def ufA : List (String × FieldMeta) :=
  [("Alias", { soapType := "xsd:string", filterable := true }),
   ("IsActive", { soapType := "xsd:boolean", filterable := true }),
   ("Secret", { soapType := "xsd:string", filterable := false })]

/-- A platform environment in which every call succeeds and the user query
returns exactly one row. -/
def envA : SFEnv :=
  { identity := "https://example.my.salesforce.com/id/00D000000000001EAA/005000000000000AAA",
    userFields := ufA,
    queryAll := fun _ => Except.ok ["005000000000000AAA"],
    cvCreate := Except.ok { success := true, id := "068000000000001AAA", errors := "[]" },
    cdRecords := fun _ => ["069000000000001AAA"],
    linkOutcome := fun _ _ => none }

/-- Like `envA`, but the Connect API photo-link call raises
`SalesforceMalformedRequest`. -/
def envLinkFail : SFEnv :=
  { envA with linkOutcome := fun _ _ => some [some "INSUFFICIENT_ACCESS", none] }

/-- Like `envA`, but the user query returns two rows. -/
def envTwoUsers : SFEnv :=
  { envA with queryAll := fun _ => Except.ok ["005A", "005B"] }

/-- Like `envA`, but the user query returns zero rows. -/
def envNoUsers : SFEnv :=
  { envA with queryAll := fun _ => Except.ok [] }

/-- An existing photo file. -/
def photoOk : PhotoFile :=
  { path := "datasets/p.png", existsOnDisk := true, name := "p.png", stem := "p", b64 := "QUJD" }

/-- A photo path that does not exist on the filesystem. -/
def photoMissing : PhotoFile :=
  { path := "datasets/missing.png", existsOnDisk := false, name := "missing.png",
    stem := "missing", b64 := "" }

/-- A deploy operation that always succeeds. -/
def dep0 : String → Except String Unit := fun _ => Except.ok ()

/-- Sample project repository metadata. -/
def meta0 : ProjectMeta :=
  { repo_owner := "Julian88Tex", repo_name := "CumulusCI", repo_commit := "abc123" }

/-- Sample parent step for `freeze`. -/
def step0 : StepRef := { path := "deploy_bundles", step_num := "3" }

/-- Default step used with `List.getD` when indexing a frozen plan. -/
def dummyStep : Step := mkStep "" meta0 step0 0 ""

/-- A filesystem whose listing holds a directory `a` and a plain file `b`
under `/cw/bundles`. -/
def fsMixed : FS :=
  { isDir := fun p => decide (p ≠ "/cw/bundles/b"), listdir := fun _ => ["a", "b"] }

/-- A filesystem on which every path is a directory; the listing is returned
out of lexicographic order. -/
def fsAllDirs : FS :=
  { isDir := fun _ => true, listdir := fun _ => ["b1", "a1"] }

/-- Same directory listing as `fsAllDirs` but a different `isDir` oracle. -/
def fsAllDirsAlt : FS :=
  { isDir := fun _ => false, listdir := fun _ => ["b1", "a1"] }

/-- A filesystem with no directories at all. -/
def fsNone : FS :=
  { isDir := fun _ => false, listdir := fun _ => [] }

/-! ### Claim C4 -/

/-- Claim C4: the claim states that every wrapped platform-rejection error is
re-raised with all contained messages joined by "; ".  The code contradicts
its own signature (`join_errors` is annotated `-> str` and builds the joined
string) but lacks a `return`, so every wrapped `CumulusCIException` is raised
with message `None`: at content `[{"message": "Oops"}, {}]` the joined string
is "Oops; Unknown error." yet the raised error's message is `None`. -/
theorem c4_join_errors_returns_none :
    (∀ content, raise_cumulusci_exception content = PyErr.cumulusCIException none) ∧
    join_errors_formatted [some "Oops", none] = "Oops; Unknown error." ∧
    raise_cumulusci_exception [some "Oops", none] ≠
      PyErr.cumulusCIException (some "Oops; Unknown error.") := by
  refine ⟨fun content => rfl, rfl, ?_⟩
  simp [raise_cumulusci_exception, join_errors]

/-! ### Claim C5 -/

/-- Claim C5: the claim states that with no filter predicate, user resolution
returns the last 18 characters of the caller's identity reference.  The
defined method `get_default_user_id` does exactly that (third conjunct), but
`_run_task` calls the undefined name `_get_default_user_id`, so the no-`where`
run path (absent or empty option, first two conjuncts) raises
`AttributeError` before any platform call instead of resolving the user. -/
theorem c5_default_user_resolution_raises :
    (∀ env photo, run_task env photo none =
        (Except.error (PyErr.attributeError "_get_default_user_id"), [])) ∧
    (∀ env photo, run_task env photo (some "") =
        (Except.error (PyErr.attributeError "_get_default_user_id"), [])) ∧
    (∀ (env : SFEnv) (pre uid : String), uid.data.length = 18 →
        env.identity = pre ++ uid →
        get_default_user_id env = (Except.ok uid, [PCall.restIdentity])) := by
  refine ⟨fun env photo => rfl, fun env photo => rfl, ?_⟩
  intro env pre uid hlen hid
  unfold get_default_user_id strTakeRight
  rw [hid, String.data_append, List.length_append, hlen, Nat.add_sub_cancel, List.drop_left]

/-- Witness for C5: the identity-derived conjunct applied to a concrete
identity reference, and the failing run path evaluated at a concrete input. -/
theorem c5_default_user_resolution_raises_witness :
    ("005000000000000AAA" : String).data.length = 18 ∧
    get_default_user_id envA = (Except.ok "005000000000000AAA", [PCall.restIdentity]) ∧
    run_task envA photoOk none =
      (Except.error (PyErr.attributeError "_get_default_user_id"), []) :=
  ⟨by decide,
   c5_default_user_resolution_raises.2.2 envA
     "https://example.my.salesforce.com/id/00D000000000001EAA/" "005000000000000AAA"
     (by decide) rfl,
   c5_default_user_resolution_raises.1 envA photoOk⟩

/-! ### Claim C3 -/

/-- Claim C3: when the configured photo path does not exist, `uploadPhoto`
fails with the path-not-found `CumulusCIException` (the spec's
`NotFoundError`) and its platform-call trace is empty: no query, create,
link or delete reaches the platform client. -/
theorem c3_missing_photo_no_platform_calls (env : SFEnv) (photo : PhotoFile)
    (userId : String) (h : photo.existsOnDisk = false) :
    uploadPhoto env photo userId =
      (Except.error (PyErr.cumulusCIException (some ("No photo found at path: " ++ photo.path))),
       []) := by
  simp [uploadPhoto, insert_content_document, h]

/-- Witness for C3 at a concrete missing photo path. -/
theorem c3_missing_photo_no_platform_calls_witness :
    photoMissing.existsOnDisk = false ∧
    uploadPhoto envA photoMissing "005000000000000AAA" =
      (Except.error (PyErr.cumulusCIException (some "No photo found at path: datasets/missing.png")),
       []) :=
  ⟨rfl, c3_missing_photo_no_platform_calls envA photoMissing "005000000000000AAA" rfl⟩

/-! ### Claim C1 -/

/-- The insert phase (`_insert_content_document`) records no content-document
delete in its platform trace. -/
theorem delCount_insert_eq_zero (env : SFEnv) (photo : PhotoFile) (cdid : String) :
    delCount cdid (insert_content_document env photo).2 = 0 := by
  unfold insert_content_document
  dsimp only
  split
  · rfl
  · split
    · rfl
    · split
      · rfl
      · split
        · rfl
        · rfl

/-- Claim C1: once the content-version create has succeeded (the insert phase
returned the content document `cdid`), a `SalesforceMalformedRequest` from the
photo-link call makes `uploadPhoto` delete that content document exactly once,
with the delete recorded before the wrapped `CumulusCIException` is raised;
and when the link call succeeds, no delete of it occurs. -/
theorem c1_link_failure_cleanup (env : SFEnv) (photo : PhotoFile)
    (userId cdid : String) (tr : List PCall)
    (hins : insert_content_document env photo = (Except.ok cdid, tr)) :
    (∀ content, env.linkOutcome userId cdid = some content →
        uploadPhoto env photo userId =
          (Except.error (PyErr.cumulusCIException (join_errors content)),
           tr ++ [PCall.linkPhoto userId cdid, PCall.deleteContentDocument cdid]) ∧
        delCount cdid (uploadPhoto env photo userId).2 = 1) ∧
    (env.linkOutcome userId cdid = none →
        uploadPhoto env photo userId =
          (Except.ok (), tr ++ [PCall.linkPhoto userId cdid]) ∧
        delCount cdid (uploadPhoto env photo userId).2 = 0) := by
  have htr : delCount cdid tr = 0 := by
    have h := delCount_insert_eq_zero env photo cdid
    rw [hins] at h
    exact h
  constructor
  · intro content hlink
    have hup : uploadPhoto env photo userId =
        (Except.error (PyErr.cumulusCIException (join_errors content)),
         tr ++ [PCall.linkPhoto userId cdid, PCall.deleteContentDocument cdid]) := by
      unfold uploadPhoto
      rw [hins]
      dsimp only
      rw [hlink]
      rfl
    refine ⟨hup, ?_⟩
    rw [hup]
    unfold delCount at htr ⊢
    rw [List.countP_append, htr]
    simp [isDeleteOf, List.countP_cons]
  · intro hlink
    have hup : uploadPhoto env photo userId =
        (Except.ok (), tr ++ [PCall.linkPhoto userId cdid]) := by
      unfold uploadPhoto
      rw [hins]
      dsimp only
      rw [hlink]
    refine ⟨hup, ?_⟩
    rw [hup]
    unfold delCount at htr ⊢
    rw [List.countP_append, htr]
    simp [isDeleteOf, List.countP_cons]

/-- Witness for C1: on `envLinkFail` the link call is rejected and the created
content document is deleted exactly once; on `envA` the link succeeds and no
delete occurs. -/
theorem c1_link_failure_cleanup_witness :
    insert_content_document envLinkFail photoOk =
      (Except.ok "069000000000001AAA",
       [PCall.contentVersionCreate "p.png" "p" "QUJD",
        PCall.queryContentVersion
          "SELECT Id, ContentDocumentId FROM ContentVersion WHERE Id = '068000000000001AAA'"]) ∧
    delCount "069000000000001AAA" (uploadPhoto envLinkFail photoOk "005000000000000AAA").2 = 1 ∧
    delCount "069000000000001AAA" (uploadPhoto envA photoOk "005000000000000AAA").2 = 0 := by
  refine ⟨rfl, ?_, ?_⟩
  · exact ((c1_link_failure_cleanup envLinkFail photoOk "005000000000000AAA"
      "069000000000001AAA" _ rfl).1 _ rfl).2
  · exact ((c1_link_failure_cleanup envA photoOk "005000000000000AAA"
      "069000000000001AAA" _ rfl).2 rfl).2

/-! ### Claim C6 -/

/-- A substring of `h` is a substring of `pre ++ h`. -/
theorem substrOf_appendL (pre n h : String) (hs : substrOf n h) :
    substrOf n (pre ++ h) := by
  rcases hs with ⟨l, r, he⟩
  refine ⟨pre.data ++ l, r, ?_⟩
  rw [String.data_append, he]
  simp [List.append_assoc]

/-- Every element of a joined list occurs as a substring of the join. -/
theorem substrOf_joinSep (sep : String) :
    ∀ (l : List String) (u : String), u ∈ l → substrOf u (joinSep sep l)
  | [], u, h => absurd h (List.not_mem_nil u)
  | [s], u, h => by
      have hu : u = s := by simpa using h
      subst hu
      exact ⟨[], [], by simp [joinSep]⟩
  | s :: t :: rest, u, h => by
      rcases List.mem_cons.mp h with h1 | h2
      · subst h1
        refine ⟨[], (sep ++ joinSep sep (t :: rest)).data, ?_⟩
        simp [joinSep, String.data_append, List.append_assoc]
      · have ih := substrOf_joinSep sep (t :: rest) u h2
        have hj : joinSep sep (s :: t :: rest) = (s ++ sep) ++ joinSep sep (t :: rest) := rfl
        rw [hj]
        exact substrOf_appendL (s ++ sep) u _ ih

/-- Claim C6: when the filtered user query returns `ids`, the resolution
fails with the zero-rows `CumulusCIException` (the spec's `NotFoundError`) on
zero rows; on two or more rows it fails with the more-than-one
`CumulusCIException` (the spec's `AmbiguousResultError`) whose message
contains every returned identifier; and on exactly one row it returns that
identifier. -/
theorem c6_filtered_query_row_counts (env : SFEnv) (w : String) (ids : List String)
    (hq : env.queryAll ("SELECT Id FROM User WHERE " ++ strip_where w) = Except.ok ids) :
    (ids = [] →
        get_user_id_by_query env w =
          (Except.error (PyErr.cumulusCIException (some "No Users found.")),
           [PCall.queryAllUsers ("SELECT Id FROM User WHERE " ++ strip_where w)])) ∧
    (2 ≤ ids.length →
        get_user_id_by_query env w =
          (Except.error (PyErr.cumulusCIException (some
            ("More than one User found (" ++ toString ids.length ++ "): " ++ joinSep ", " ids))),
           [PCall.queryAllUsers ("SELECT Id FROM User WHERE " ++ strip_where w)]) ∧
        ∀ u ∈ ids, substrOf u
          ("More than one User found (" ++ toString ids.length ++ "): " ++ joinSep ", " ids)) ∧
    (∀ u, ids = [u] →
        get_user_id_by_query env w =
          (Except.ok u, [PCall.queryAllUsers ("SELECT Id FROM User WHERE " ++ strip_where w)])) := by
  refine ⟨?_, ?_, ?_⟩
  · rintro rfl
    simp [get_user_id_by_query, hq]
  · intro hlen
    have h1 : ¬ ids.length < 1 := by omega
    have h2 : 1 < ids.length := by omega
    refine ⟨by simp [get_user_id_by_query, hq, h1, h2], ?_⟩
    intro u hu
    exact substrOf_appendL _ u _ (substrOf_joinSep ", " ids u hu)
  · intro u hids
    subst hids
    simp [get_user_id_by_query, hq]

/-- Witness for C6 at zero, two and one returned rows. -/
theorem c6_filtered_query_row_counts_witness :
    get_user_id_by_query envNoUsers "Alias = 'grace'" =
      (Except.error (PyErr.cumulusCIException (some "No Users found.")),
       [PCall.queryAllUsers ("SELECT Id FROM User WHERE " ++ strip_where "Alias = 'grace'")]) ∧
    get_user_id_by_query envTwoUsers "Alias = 'grace'" =
      (Except.error (PyErr.cumulusCIException (some "More than one User found (2): 005A, 005B")),
       [PCall.queryAllUsers ("SELECT Id FROM User WHERE " ++ strip_where "Alias = 'grace'")]) ∧
    substrOf "005A" "More than one User found (2): 005A, 005B" ∧
    substrOf "005B" "More than one User found (2): 005A, 005B" ∧
    get_user_id_by_query envA "Alias = 'grace'" =
      (Except.ok "005000000000000AAA",
       [PCall.queryAllUsers ("SELECT Id FROM User WHERE " ++ strip_where "Alias = 'grace'")]) := by
  have htwo := (c6_filtered_query_row_counts envTwoUsers "Alias = 'grace'"
    ["005A", "005B"] rfl).2.1 (by decide)
  refine ⟨(c6_filtered_query_row_counts envNoUsers "Alias = 'grace'" [] rfl).1 rfl,
    htwo.1, htwo.2 "005A" (by decide), htwo.2 "005B" (by decide),
    (c6_filtered_query_row_counts envA "Alias = 'grace'"
      ["005000000000000AAA"] rfl).2.2 "005000000000000AAA" rfl⟩

/-! ### Claim C7 -/

/-- When every filter field is present and filterable, the clause loop of
`_get_query` returns the rendered clauses in iteration order. -/
theorem buildFilterClauses_ok (uf : List (String × FieldMeta)) :
    ∀ filters : List (String × String),
      (∀ p ∈ filters, ∃ f, uf.lookup p.1 = some f ∧ f.filterable = true) →
      buildFilterClauses uf filters = Except.ok (filters.map (renderClause uf))
  | [], _ => rfl
  | (name, value) :: rest, h => by
      rcases h (name, value) (List.mem_cons_self _ _) with ⟨f, hf, hfil⟩
      have ih := buildFilterClauses_ok uf rest (fun p hp => h p (List.mem_cons_of_mem _ hp))
      simp [buildFilterClauses, hf, hfil, ih]

/-- When some filter field is unknown or not filterable, the clause loop of
`_get_query` raises a `CumulusCIException`. -/
theorem buildFilterClauses_err (uf : List (String × FieldMeta)) :
    ∀ filters : List (String × String),
      (∃ p ∈ filters, uf.lookup p.1 = none ∨
          ∃ f, uf.lookup p.1 = some f ∧ f.filterable = false) →
      ∃ msg, buildFilterClauses uf filters = Except.error (PyErr.cumulusCIException (some msg))
  | [], h => by
      rcases h with ⟨p, hp, _⟩
      exact absurd hp (List.not_mem_nil p)
  | (name, value) :: rest, h => by
      by_cases hbad : uf.lookup name = none ∨
          ∃ f, uf.lookup name = some f ∧ f.filterable = false
      · rcases hbad with hnone | ⟨f, hf, hfil⟩
        · exact ⟨"User Field \"" ++ name ++ "\" referenced in \"filters\" option is not found.  Fields are case-sensitive.",
            by simp [buildFilterClauses, hnone]⟩
        · exact ⟨"User Field \"" ++ name ++ "\" referenced in \"filters\" option must be filterable.",
            by simp [buildFilterClauses, hf, hfil]⟩
      · push_neg at hbad
        rcases Option.ne_none_iff_exists'.mp hbad.1 with ⟨f, hf⟩
        have hfil : f.filterable = true := by
          cases hb : f.filterable
          · exact absurd hb (hbad.2 f hf)
          · rfl
        rcases h with ⟨p, hp, hcase⟩
        rcases List.mem_cons.mp hp with heq | hrest
        · exfalso
          rcases hcase with h1 | ⟨g, hg, hgf⟩
          · rw [heq] at h1
            rw [hf] at h1
            exact Option.noConfusion h1
          · rw [heq] at hg
            rw [hf] at hg
            have hgef : g = f := (Option.some.inj hg).symm
            rw [hgef, hfil] at hgf
            exact Bool.noConfusion hgf
        · rcases buildFilterClauses_err uf rest ⟨p, hrest, hcase⟩ with ⟨msg, hmsg⟩
          exact ⟨msg, by simp [buildFilterClauses, hf, hfil, hmsg]⟩

/-- Claim C7: for every filter mapping whose fields all exist (case-sensitive)
and are filterable, `_get_query` returns the conjunctive query joined with
" AND ", each clause quoted exactly when the field's soap type is one of the
string/ID/address types; an unknown or non-filterable field instead raises a
`CumulusCIException` (the spec's `ConfigurationError`). -/
theorem c7_query_construction (uf : List (String × FieldMeta))
    (filters : List (String × String)) :
    ((∀ p ∈ filters, ∃ f, uf.lookup p.1 = some f ∧ f.filterable = true) →
        get_query uf filters =
          Except.ok ("SELECT Id FROM User WHERE " ++
            joinSep " AND " (filters.map (renderClause uf))) ∧
        ∀ p ∈ filters, ∀ f, uf.lookup p.1 = some f →
          renderClause uf p =
            if f.soapType = "xsd:string" ∨ f.soapType = "tns:ID" ∨ f.soapType = "urn:address"
            then p.1 ++ " = '" ++ p.2 ++ "'"
            else p.1 ++ " = " ++ p.2) ∧
    ((∃ p ∈ filters, uf.lookup p.1 = none ∨
          ∃ f, uf.lookup p.1 = some f ∧ f.filterable = false) →
        ∃ msg, get_query uf filters = Except.error (PyErr.cumulusCIException (some msg))) := by
  constructor
  · intro h
    constructor
    · unfold get_query
      rw [buildFilterClauses_ok uf filters h]
    · intro p hp f hf
      unfold renderClause
      rw [hf]
  · intro h
    rcases buildFilterClauses_err uf filters h with ⟨msg, hmsg⟩
    refine ⟨msg, ?_⟩
    unfold get_query
    rw [hmsg]

/-- Witness for C7: a quoted string field and an unquoted boolean field in one
query; an unknown field and a non-filterable field each raising. -/
theorem c7_query_construction_witness :
    get_query ufA [("Alias", "grace"), ("IsActive", "true")] =
      Except.ok "SELECT Id FROM User WHERE Alias = 'grace' AND IsActive = true" ∧
    (∃ msg, get_query ufA [("Nope", "x")] =
      Except.error (PyErr.cumulusCIException (some msg))) ∧
    (∃ msg, get_query ufA [("Secret", "s")] =
      Except.error (PyErr.cumulusCIException (some msg))) := by
  have hgood : ∀ p ∈ ([("Alias", "grace"), ("IsActive", "true")] : List (String × String)),
      ∃ f, ufA.lookup p.1 = some f ∧ f.filterable = true := by
    intro p hp
    rcases List.mem_cons.mp hp with rfl | hp2
    · exact ⟨{ soapType := "xsd:string", filterable := true }, rfl, rfl⟩
    · have hp3 : p = ("IsActive", "true") := by simpa using hp2
      subst hp3
      exact ⟨{ soapType := "xsd:boolean", filterable := true }, rfl, rfl⟩
  refine ⟨?_, ?_, ?_⟩
  · exact ((c7_query_construction ufA [("Alias", "grace"), ("IsActive", "true")]).1 hgood).1
  · exact (c7_query_construction ufA [("Nope", "x")]).2
      ⟨("Nope", "x"), List.mem_cons_self _ _, Or.inl rfl⟩
  · exact (c7_query_construction ufA [("Secret", "s")]).2
      ⟨("Secret", "s"), List.mem_cons_self _ _,
       Or.inr ⟨{ soapType := "xsd:string", filterable := false }, rfl, rfl⟩⟩

/-! ### Claim C8 -/

/-- Claim C8: when the resolved parent path is not a directory,
`DeployBundles._run_task` returns successfully (warn-and-skip) with zero
invocations of the injected deploy operation. -/
theorem c8_missing_path_noop (fs : FS) (dep : String → Except String Unit)
    (pwd path : String) (h : fs.isDir (pyPathJoin pwd path) = false) :
    run_task_deploy fs dep pwd path = ([], none) := by
  simp [run_task_deploy, h]

/-- Witness for C8 on a filesystem with no directories. -/
theorem c8_missing_path_noop_witness :
    fsNone.isDir (pyPathJoin "/cw" "bundles") = false ∧
    run_task_deploy fsNone dep0 "/cw" "bundles" = ([], none) :=
  ⟨rfl, c8_missing_path_noop fsNone dep0 "/cw" "bundles" rfl⟩

/-! ### Claim C9 -/

/-- Inserting into a list grows its length by one. -/
theorem length_insertStr (a : String) : ∀ l : List String,
    (insertStr a l).length = l.length + 1
  | [] => rfl
  | b :: l => by
      unfold insertStr
      split
      · rfl
      · simp [length_insertStr a l]

/-- Sorting preserves length. -/
theorem length_sortedStr : ∀ l : List String, (sortedStr l).length = l.length
  | [] => rfl
  | a :: l => by simp [sortedStr, length_insertStr, length_sortedStr l]

/-- Enumerating preserves length. -/
theorem length_enumFrom {α : Type} : ∀ (k : Nat) (l : List α),
    (enumFrom k l).length = l.length
  | _, [] => rfl
  | k, a :: l => by simp [enumFrom, length_enumFrom (k + 1) l]

/-- Mapping a function of the element part over an enumeration is mapping it
over the list. -/
theorem enumFrom_map_snd {α β : Type} (f : α → β) : ∀ (k : Nat) (l : List α),
    (enumFrom k l).map (fun p => f p.2) = l.map f
  | _, [] => rfl
  | k, a :: l => by simp [enumFrom, enumFrom_map_snd f (k + 1) l]

/-- Indexing a mapped enumeration: the `i`-th element is the function at
counter `k + i` and the `i`-th list element. -/
theorem getD_map_enumFrom (g : Nat × String → Step) (d : Step) (d' : String) :
    ∀ (k : Nat) (l : List String) (i : Nat), i < l.length →
      ((enumFrom k l).map g).getD i d = g (k + i, l.getD i d')
  | _, [], i, h => absurd h (by simp)
  | k, a :: l, 0, _ => by simp [enumFrom]
  | k, a :: l, i + 1, h => by
      have ih := getD_map_enumFrom g d d' (k + 1) l i (Nat.lt_of_succ_lt_succ h)
      simp only [enumFrom, List.map_cons, List.getD_cons_succ]
      rw [ih]
      have harith : k + 1 + i = k + (i + 1) := by omega
      rw [harith]

/-- Claim C9: `freeze` depends on the filesystem only through the directory
listing (so its output is identical across repeated calls with an unchanged
listing and unchanged project metadata), it executes no deployment, and the
`i`-th step (0-based) is built from the `i`-th entry of the sorted listing
with `step_num` equal to the parent number joined by a dot to `i + 1`. -/
theorem c9_freeze_deterministic (fs fs' : FS) (path : String) (meta : ProjectMeta)
    (step : StepRef) (h : fs.listdir path = fs'.listdir path) :
    freeze fs path meta step = freeze fs' path meta step ∧
    (freeze fs path meta step).2 = [] ∧
    (freeze fs path meta step).1.length = (fs.listdir path).length ∧
    ∀ i, i < (fs.listdir path).length →
      (freeze fs path meta step).1.getD i dummyStep =
        mkStep path meta step (i + 1) ((sortedStr (fs.listdir path)).getD i "") ∧
      ((freeze fs path meta step).1.getD i dummyStep).step_num =
        step.step_num ++ "." ++ toString (i + 1) := by
  refine ⟨?_, rfl, ?_, ?_⟩
  · unfold freeze
    rw [h]
  · unfold freeze
    simp [length_enumFrom, length_sortedStr]
  · intro i hi
    have hi' : i < (sortedStr (fs.listdir path)).length := by
      rw [length_sortedStr]
      exact hi
    have hg := getD_map_enumFrom (fun p => mkStep path meta step p.1 p.2) dummyStep ""
      1 (sortedStr (fs.listdir path)) i hi'
    have h1 : (freeze fs path meta step).1.getD i dummyStep =
        mkStep path meta step (i + 1) ((sortedStr (fs.listdir path)).getD i "") := by
      show ((enumFrom 1 (sortedStr (fs.listdir path))).map
        (fun p => mkStep path meta step p.1 p.2)).getD i dummyStep = _
      rw [hg]
      have harith : 1 + i = i + 1 := by omega
      rw [harith]
    exact ⟨h1, by rw [h1]; rfl⟩

/-- Witness for C9: two filesystems sharing a listing freeze identically, with
dotted step numbers `3.1`, `3.2` under parent step number `3`. -/
theorem c9_freeze_deterministic_witness :
    fsAllDirs.listdir "bundles" = fsAllDirsAlt.listdir "bundles" ∧
    freeze fsAllDirs "bundles" meta0 step0 = freeze fsAllDirsAlt "bundles" meta0 step0 ∧
    ((freeze fsAllDirs "bundles" meta0 step0).1.getD 0 dummyStep).step_num = "3.1" ∧
    ((freeze fsAllDirs "bundles" meta0 step0).1.getD 1 dummyStep).step_num = "3.2" := by
  have hc := c9_freeze_deterministic fsAllDirs fsAllDirsAlt "bundles" meta0 step0 rfl
  exact ⟨rfl, hc.1, (hc.2.2.2 0 (by decide)).2, (hc.2.2.2 1 (by decide)).2⟩

/-! ### Claim C2 -/

/-- The entry name recovered from a frozen step is the entry it was built
from. -/
theorem stepEntryName_mkStep (path : String) (meta : ProjectMeta) (step : StepRef)
    (i : Nat) (item : String) :
    stepEntryName path (mkStep path meta step i item) = item := by
  unfold stepEntryName mkStep
  dsimp only
  have hdata : (path ++ "/" ++ item).data = (path.data ++ ['/']) ++ item.data := by
    rw [String.data_append, String.data_append]
  rw [hdata]
  have hlen : path.data.length + 1 = (path.data ++ ['/']).length := by simp
  rw [hlen, List.drop_left]

/-- The entry names of a frozen plan are exactly the sorted directory
listing. -/
theorem stepsEntryNames_freeze (fs : FS) (path : String) (meta : ProjectMeta)
    (step : StepRef) :
    stepsEntryNames path (freeze fs path meta step).1 = sortedStr (fs.listdir path) := by
  unfold stepsEntryNames freeze
  dsimp only
  rw [List.map_map]
  have hcomp : (stepEntryName path ∘ fun p : Nat × String => mkStep path meta step p.1 p.2)
      = fun p : Nat × String => p.2 := by
    funext p
    simp [Function.comp, stepEntryName_mkStep]
  rw [hcomp]
  have h2 := enumFrom_map_snd (fun x : String => x) 1 (sortedStr (fs.listdir path))
  simpa using h2

/-- Counterexample to Claim C2 as stated: on a listing holding directory `a`
and plain file `b` (the same listing seen by both operations), `deployAll`
visits only `["a"]` while `freeze` produces steps for `["a", "b"]`. -/
theorem c2_counterexample :
    (run_task_deploy fsMixed dep0 "/cw" "bundles").1 = ["a"] ∧
    stepsEntryNames "bundles" (freeze fsMixed "bundles" meta0 step0).1 = ["a", "b"] ∧
    (run_task_deploy fsMixed dep0 "/cw" "bundles").1 ≠
      stepsEntryNames "bundles" (freeze fsMixed "bundles" meta0 step0).1 := by
  have h1 : (run_task_deploy fsMixed dep0 "/cw" "bundles").1 = ["a"] := rfl
  have h2 : stepsEntryNames "bundles" (freeze fsMixed "bundles" meta0 step0).1 = ["a", "b"] := rfl
  refine ⟨h1, h2, ?_⟩
  rw [h1, h2]
  simp

/-- When every listed entry is a directory and each deploy succeeds, the loop
visits every entry in order. -/
theorem deployLoop_all_ok (fs : FS) (dep : String → Except String Unit)
    (resolved : String) :
    ∀ L : List String,
      (∀ item ∈ L, fs.isDir (pyPathJoin resolved item) = true) →
      (∀ p, dep p = Except.ok ()) →
      deployLoop fs dep resolved L = (L, none)
  | [], _, _ => rfl
  | item :: rest, hall, hdep => by
      have hd := hall item (List.mem_cons_self _ _)
      have ih := deployLoop_all_ok fs dep resolved rest
        (fun x hx => hall x (List.mem_cons_of_mem _ hx)) hdep
      simp [deployLoop, hd, hdep (pyPathJoin resolved item), ih]

/-- Membership in an insertion. -/
theorem mem_insertStr (a x : String) : ∀ l : List String,
    x ∈ insertStr a l → x = a ∨ x ∈ l
  | [], h => Or.inl (by simpa [insertStr] using h)
  | b :: l, h => by
      unfold insertStr at h
      split at h
      · rcases List.mem_cons.mp h with h1 | h2
        · exact Or.inl h1
        · exact Or.inr h2
      · rcases List.mem_cons.mp h with h1 | h2
        · exact Or.inr (h1 ▸ List.mem_cons_self _ _)
        · rcases mem_insertStr a x l h2 with h3 | h3
          · exact Or.inl h3
          · exact Or.inr (List.mem_cons_of_mem _ h3)

/-- Sorting introduces no new elements. -/
theorem mem_sortedStr (x : String) : ∀ l : List String, x ∈ sortedStr l → x ∈ l
  | [], h => by simp [sortedStr] at h
  | a :: l, h => by
      unfold sortedStr at h
      rcases mem_insertStr a x (sortedStr l) h with h1 | h2
      · exact h1 ▸ List.mem_cons_self _ _
      · exact List.mem_cons_of_mem _ (mem_sortedStr x l h2)

/-- Claim C2 amended: the equality of `deployAll`'s visit order with
`freeze`'s entry order holds for listings all of whose entries are
directories (and an execution in which every bundle deploy succeeds); the
unrestricted claim fails because `deployAll` skips non-directory entries
while `freeze` enumerates every entry (`c2_counterexample`). -/
theorem c2_amended_deploy_matches_freeze (fs : FS) (dep : String → Except String Unit)
    (pwd path : String) (meta : ProjectMeta) (step : StepRef)
    (hsame : fs.listdir (pyPathJoin pwd path) = fs.listdir path)
    (hdir : fs.isDir (pyPathJoin pwd path) = true)
    (hall : ∀ item ∈ fs.listdir path, fs.isDir (pyPathJoin (pyPathJoin pwd path) item) = true)
    (hdep : ∀ p, dep p = Except.ok ()) :
    run_task_deploy fs dep pwd path =
      (stepsEntryNames path (freeze fs path meta step).1, none) := by
  rw [stepsEntryNames_freeze]
  unfold run_task_deploy
  dsimp only
  rw [hdir, hsame]
  have hall' : ∀ item ∈ sortedStr (fs.listdir path),
      fs.isDir (pyPathJoin (pyPathJoin pwd path) item) = true :=
    fun item hx => hall item (mem_sortedStr item (fs.listdir path) hx)
  rw [if_neg (by simp : ¬ (true = false))]
  exact deployLoop_all_ok fs dep (pyPathJoin pwd path) (sortedStr (fs.listdir path))
    hall' hdep

/-- Witness for the amended C2 on an all-directories listing returned out of
order. -/
theorem c2_amended_deploy_matches_freeze_witness :
    run_task_deploy fsAllDirs dep0 "/cw" "bundles" =
      (stepsEntryNames "bundles" (freeze fsAllDirs "bundles" meta0 step0).1, none) ∧
    stepsEntryNames "bundles" (freeze fsAllDirs "bundles" meta0 step0).1 = ["a1", "b1"] :=
  ⟨c2_amended_deploy_matches_freeze fsAllDirs dep0 "/cw" "bundles" meta0 step0
     rfl rfl (fun _ _ => rfl) (fun _ => rfl),
   rfl⟩

/-! ### Claim C10 -/

/-- `_get_user_id_by_query` always makes exactly one platform call: the user
query built from the `where` option. -/
theorem get_user_id_by_query_trace (env : SFEnv) (w : String) :
    (get_user_id_by_query env w).2 =
      [PCall.queryAllUsers ("SELECT Id FROM User WHERE " ++ strip_where w)] := by
  unfold get_user_id_by_query
  dsimp only
  split
  · rfl
  · split
    · rfl
    · split <;> rfl

/-- The insert phase makes no `User.describe` call. -/
theorem describe_not_in_insert (env : SFEnv) (photo : PhotoFile) :
    PCall.describeUser ∉ (insert_content_document env photo).2 := by
  unfold insert_content_document
  dsimp only
  split
  · simp
  · split
    · simp
    · split
      · simp
      · split <;> simp

/-- `uploadPhoto` makes no `User.describe` call. -/
theorem describe_not_in_upload (env : SFEnv) (photo : PhotoFile) (userId : String) :
    PCall.describeUser ∉ (uploadPhoto env photo userId).2 := by
  unfold uploadPhoto
  rcases hins : insert_content_document env photo with ⟨r, tr⟩
  have hni : PCall.describeUser ∉ tr := by
    have h := describe_not_in_insert env photo
    rw [hins] at h
    exact h
  rcases r with e | cdid
  · dsimp only
    exact hni
  · dsimp only
    cases env.linkOutcome userId cdid
    · intro hmem
      rcases List.mem_append.mp hmem with h | h
      · exact hni h
      · simp at h
    · intro hmem
      rcases List.mem_append.mp hmem with h | h
      · exact hni h
      · simp at h

/-- `_get_user_id_by_query` reads the environment only through `query_all`:
it performs no schema describe and no field validation. -/
theorem get_user_id_by_query_env_indep (env env' : SFEnv) (w : String)
    (hqa : env.queryAll = env'.queryAll) :
    get_user_id_by_query env w = get_user_id_by_query env' w := by
  unfold get_user_id_by_query
  rw [hqa]

/-- `strip_where` removes a leading case-insensitive `WHERE` together with one
following space. -/
theorem strip_where_space (p r : String) (hlen : p.data.length = 5)
    (hlow : lowerList p.data = "where".data) :
    strip_where (p ++ " " ++ r) = r := by
  unfold strip_where
  have hdata : (p ++ " " ++ r).data = p.data ++ (' ' :: r.data) := by
    rw [String.data_append, String.data_append, List.append_assoc]
    rfl
  rw [hdata, ← hlen, List.take_left, List.drop_left]
  rw [if_pos ⟨hlow, by simp⟩]
  rfl

/-- `strip_where` removes a leading case-insensitive `WHERE` with no
following space when what follows does not start with a space. -/
theorem strip_where_nospace (p r : String) (hlen : p.data.length = 5)
    (hlow : lowerList p.data = "where".data) (hr : ∀ t, r.data ≠ ' ' :: t) :
    strip_where (p ++ r) = r := by
  unfold strip_where
  rw [String.data_append, ← hlen, List.take_left, List.drop_left]
  rw [if_pos ⟨hlow, by simp⟩]
  split
  · rename_i t ht
    exact absurd ht (hr t)
  · rfl

/-- A string not starting with case-insensitive `WHERE` is unchanged. -/
theorem strip_where_id (w : String)
    (h : ¬ (lowerList (w.data.take 5) = "where".data ∧ 5 ≤ w.data.length)) :
    strip_where w = w := by
  unfold strip_where
  rw [if_neg h]

/-- Claim C10: with a non-empty `where` option, the first (and only
user-resolution) platform call of `_run_task` is the query
`SELECT Id FROM User WHERE ` followed by the option with one leading
case-insensitive `WHERE` token and at most one following space removed;
no describe reaches the platform and the resolution depends on the
environment only through `query_all` (no field-name or filterability
validation); the last three conjuncts characterise the removal exactly. -/
theorem c10_where_option_verbatim (env env' : SFEnv) (photo : PhotoFile)
    (w : String) (hw : w ≠ "") :
    (run_task env photo (some w)).2.head? =
      some (PCall.queryAllUsers ("SELECT Id FROM User WHERE " ++ strip_where w)) ∧
    PCall.describeUser ∉ (run_task env photo (some w)).2 ∧
    (env.queryAll = env'.queryAll →
      get_user_id_by_query env w = get_user_id_by_query env' w) ∧
    (∀ p r : String, p.data.length = 5 → lowerList p.data = "where".data →
      strip_where (p ++ " " ++ r) = r) ∧
    (∀ p r : String, p.data.length = 5 → lowerList p.data = "where".data →
      (∀ t, r.data ≠ ' ' :: t) → strip_where (p ++ r) = r) ∧
    (∀ w' : String, ¬ (lowerList (w'.data.take 5) = "where".data ∧ 5 ≤ w'.data.length) →
      strip_where w' = w') := by
  have hq := get_user_id_by_query_trace env w
  refine ⟨?_, ?_, get_user_id_by_query_env_indep env env' w, strip_where_space,
    strip_where_nospace, strip_where_id⟩
  · unfold run_task
    dsimp only
    rw [if_neg hw]
    rcases hu : get_user_id_by_query env w with ⟨r, tr⟩
    have htr : tr = [PCall.queryAllUsers ("SELECT Id FROM User WHERE " ++ strip_where w)] := by
      rw [hu] at hq
      exact hq
    subst htr
    rcases r with e | uid
    · rfl
    · simp
  · unfold run_task
    dsimp only
    rw [if_neg hw]
    rcases hu : get_user_id_by_query env w with ⟨r, tr⟩
    have htr : tr = [PCall.queryAllUsers ("SELECT Id FROM User WHERE " ++ strip_where w)] := by
      rw [hu] at hq
      exact hq
    subst htr
    rcases r with e | uid
    · simp
    · dsimp only
      intro hmem
      rcases List.mem_append.mp hmem with h | h
      · simp at h
      · exact describe_not_in_upload env photo uid h

/-- Witness for C10: a lowercase `where `-prefixed option is stripped and
embedded verbatim; an option without the token is embedded unchanged. -/
theorem c10_where_option_verbatim_witness :
    (run_task envA photoOk (some "where Alias = 'grace'")).2.head? =
      some (PCall.queryAllUsers
        ("SELECT Id FROM User WHERE " ++ strip_where "where Alias = 'grace'")) ∧
    strip_where "where Alias = 'grace'" = "Alias = 'grace'" ∧
    strip_where "Alias = 'grace'" = "Alias = 'grace'" := by
  have hc := c10_where_option_verbatim envA envA photoOk "where Alias = 'grace'" (by decide)
  refine ⟨hc.1, ?_, ?_⟩
  · exact hc.2.2.2.1 "where" "Alias = 'grace'" (by decide) (by decide)
  · exact hc.2.2.2.2.2 "Alias = 'grace'" (by decide)

end CCI
